import Mathlib

/-!
Verification development for the honeypot conversation engine.

The definitions below are a shallow embedding of the Python sources:
`extractor.py`, `detector.py`, `session_store.py`, `agent_engine.py`,
`callback_reporter.py` and the orchestration step of `app.py`.
Python regexes are embedded as hand-rolled scanners over `List Char`
that follow Python `re` semantics (leftmost non-overlapping matches,
greedy quantifiers with backtracking, `\b` word boundaries, `.` not
matching a newline).  Only ASCII text is considered, which covers every
pattern and keyword appearing in the sources.
-/

namespace Honeypot

/-! ## Character classes (Python `re` semantics, ASCII) -/

/-- Python whitespace class from the regex `\s` and from `str.strip()`:
space, tab, newline, carriage return, vertical tab, form feed. -/
def isPySpace (c : Char) : Bool :=
  c = ' ' || c = '\t' || c = '\n' || c = '\r' || c = Char.ofNat 11 || c = Char.ofNat 12

/-- Python word-character class from the regex `\w` (ASCII): alphanumeric or underscore.
Word boundaries `\b` are defined from this class. -/
def isWordChar (c : Char) : Bool :=
  c.isAlphanum || c = '_'

/-- Whether an optional character (none = outside the string) is a word character. -/
def isWordOpt : Option Char → Bool
  | none => false
  | some c => isWordChar c

/-- The `\b` word boundary between two adjacent positions: exactly one side is a
word character. -/
def atBoundary (prev next : Option Char) : Bool :=
  isWordOpt prev != isWordOpt next

/-- ASCII letter (regex class `[A-Za-z]`, or `[A-Z]` with `re.IGNORECASE`). -/
def isAsciiLetter (c : Char) : Bool := c.isAlpha

/-- ASCII letter or digit (regex class `[A-Z0-9]` with `re.IGNORECASE`). -/
def isAlnumAscii (c : Char) : Bool := c.isAlpha || c.isDigit

/-- Separator class `[\s-]` used by the phone and lax bank-account patterns. -/
def isSep (c : Char) : Bool := isPySpace c || c = '-'

/-- First digit of the 10-digit phone core: the regex class `[6-9]`. -/
def isPhoneStart (c : Char) : Bool := c = '6' || c = '7' || c = '8' || c = '9'

/-- The apostrophe character (written via its code point). -/
def aposChar : Char := Char.ofNat 39

/-- The double-quote character (written via its code point). -/
def quotChar : Char := Char.ofNat 34

/-! ## List-of-characters utilities -/

/-- Length of the longest prefix whose characters all satisfy `p`. -/
def countWhile (p : Char → Bool) : List Char → Nat
  | [] => 0
  | c :: rest => if p c then countWhile p rest + 1 else 0

/-- Take exactly `n` characters, all satisfying `p`; `none` if impossible. -/
def takeCount (p : Char → Bool) : Nat → List Char → Option (List Char)
  | 0, _ => some []
  | _ + 1, [] => none
  | n + 1, c :: rest =>
    if p c then (takeCount p n rest).map (fun l => c :: l) else none

/-- Does the second list start with the first one? -/
def listStartsWith : List Char → List Char → Bool
  | [], _ => true
  | _ :: _, [] => false
  | c :: cs, x :: xs => c = x && listStartsWith cs xs

/-- Python `needle in hay` substring test. -/
def containsSub (needle : List Char) : List Char → Bool
  | [] => listStartsWith needle []
  | hay@(_ :: rest) => listStartsWith needle hay || containsSub needle rest

/-- Match a literal case-insensitively (the literal is given lowercase);
returns the rest of the input on success.  Models `re.IGNORECASE` literals. -/
def matchLitCI : List Char → List Char → Option (List Char)
  | [], s => some s
  | _ :: _, [] => none
  | c :: cs, x :: xs => if x.toLower = c then matchLitCI cs xs else none

/-- Python `str.strip()` (ASCII whitespace). -/
def pystrip (l : List Char) : List Char :=
  ((l.dropWhile isPySpace).reverse.dropWhile isPySpace).reverse

/-- Python `str.strip()` on `String`. -/
def pystripS (s : String) : String := String.mk (pystrip s.data)

/-- Python `str.lower()` (ASCII). -/
def pylower (l : List Char) : List Char := l.map Char.toLower

/-- `re.sub(r"\D+", "", s)`: keep only the digits. -/
def digitsOnly (l : List Char) : List Char := l.filter Char.isDigit

/-- Helper for `collapseWs`: the flag records whether the previous character was
whitespace (so a whitespace run emits a single space). -/
def collapseWsGo : Bool → List Char → List Char
  | _, [] => []
  | inRun, c :: rest =>
    if isPySpace c then
      if inRun then collapseWsGo true rest
      else ' ' :: collapseWsGo true rest
    else c :: collapseWsGo false rest

/-- `re.sub(r"\s+", " ", s)`: collapse each whitespace run to a single space. -/
def collapseWs (l : List Char) : List Char := collapseWsGo false l

/-! ## Generic `re.findall` driver

A matcher receives the character preceding the current position (for `\b`)
and the current suffix; it returns the captured string together with the
number of characters consumed by the whole match.  `scanAll` mirrors
`re.findall`: leftmost, non-overlapping, resuming after each match.
All embedded matchers consume at least one character, so a fuel of
`length + 1` always suffices. -/

def scanAll (m : Option Char → List Char → Option (String × Nat)) :
    Nat → Option Char → List Char → List String
  | 0, _, _ => []
  | _ + 1, _, [] => []
  | fuel + 1, prev, c :: rest =>
    match m prev (c :: rest) with
    | some (cap, n) =>
      if n = 0 then []
      else cap :: scanAll m fuel ((c :: rest).take n).getLast? ((c :: rest).drop n)
    | none => scanAll m fuel (some c) rest

/-- Run a findall scanner over a whole character list. -/
def findAll (m : Option Char → List Char → Option (String × Nat)) (l : List Char) :
    List String :=
  scanAll m (l.length + 1) none l

/-- Try a function on `hi`, `hi - 1`, ... (at most `fuel` attempts), returning the
first success.  Models the backtracking of a greedy bounded repetition. -/
def downTry (f : Nat → Option (String × Nat)) : Nat → Nat → Option (String × Nat)
  | _, 0 => none
  | hi, fuel + 1 => f hi <|> downTry f (hi - 1) fuel

/-! ## The embedded regexes of `extractor.py` -/

/-- `URL_RE = https?://[^\s)>\"]+` (IGNORECASE): literal scheme matched
case-insensitively, then a maximal nonempty run of characters that are not
whitespace, `)`, `>` or `"`.  The capture keeps the original case. -/
def urlMatch (_prev : Option Char) (s : List Char) : Option (String × Nat) :=
  let body (pre : Nat) : Option (String × Nat) :=
    let run := countWhile (fun c => !(isPySpace c || c = ')' || c = '>' || c = quotChar))
      (s.drop pre)
    if run = 0 then none else some (String.mk (s.take (pre + run)), pre + run)
  match matchLitCI "https://".data s with
  | some _ => body 8
  | none =>
    match matchLitCI "http://".data s with
    | some _ => body 7
    | none => none

/-- The 10-digit core `([6-9]\d{9})\b` of `PHONE_RE`, entered after an optional
prefix of `pre` consumed characters. -/
def phoneCore (r : List Char) (pre : Nat) : Option (String × Nat) :=
  match r with
  | [] => none
  | c :: rest =>
    if isPhoneStart c then
      match takeCount Char.isDigit 9 rest with
      | some ds =>
        if isWordOpt (rest.drop 9).head? then none
        else some (String.mk (c :: ds), pre + 10)
      | none => none
    else none

/-- `PHONE_RE = (?:\+?91[\s-]?)?([6-9]\d{9})\b`.  The greedy optional prefix is
tried in the regex backtracking order `+91<sep>`, `+91`, `91<sep>`, `91`, empty;
`re.findall` returns the capture group (the 10-digit core). -/
def phoneMatch (_prev : Option Char) (s : List Char) : Option (String × Nat) :=
  (match s with
   | '+' :: '9' :: '1' :: x :: r => if isSep x then phoneCore r 4 else none
   | _ => none) <|>
  (match s with
   | '+' :: '9' :: '1' :: r => phoneCore r 3
   | _ => none) <|>
  (match s with
   | '9' :: '1' :: x :: r => if isSep x then phoneCore r 3 else none
   | _ => none) <|>
  (match s with
   | '9' :: '1' :: r => phoneCore r 2
   | _ => none) <|>
  phoneCore s 0

/-- Character class `[a-zA-Z0-9.\-_]` of the UPI local part. -/
def isUpiChar (c : Char) : Bool :=
  c.isAlpha || c.isDigit || c = '.' || c = '-' || c = '_'

/-- `UPI_RE = \b[a-zA-Z0-9.\-_]{2,}@[a-zA-Z]{2,}\b`.  Since `@` is outside the
local-part class and shortening the greedy runs can never restore the failed
boundary, only the maximal runs need to be considered. -/
def upiMatch (prev : Option Char) (s : List Char) : Option (String × Nat) :=
  if !atBoundary prev s.head? then none
  else
    let locRun := countWhile isUpiChar s
    if locRun < 2 then none
    else
      match (s.drop locRun).head? with
      | some '@' =>
        let dom := s.drop (locRun + 1)
        let domRun := countWhile isAsciiLetter dom
        if domRun < 2 then none
        else if isWordOpt (dom.drop domRun).head? then none
        else some (String.mk (s.take (locRun + 1 + domRun)), locRun + 1 + domRun)
      | _ => none

/-- `IFSC_RE = \b[A-Z]{4}0[A-Z0-9]{6}\b` (IGNORECASE). -/
def ifscMatch (prev : Option Char) (s : List Char) : Option (String × Nat) :=
  if !atBoundary prev s.head? then none
  else
    match takeCount isAsciiLetter 4 s with
    | none => none
    | some _ =>
      match (s.drop 4).head? with
      | some '0' =>
        match takeCount isAlnumAscii 6 (s.drop 5) with
        | none => none
        | some _ =>
          if isWordOpt (s.drop 11).head? then none
          else some (String.mk (s.take 11), 11)
      | _ => none

/-- `BANK_STRICT_RE = \b\d{11,18}\b`: the greedy repetition tries 18 digits
first and backtracks down to 11, each time requiring the trailing boundary. -/
def bankStrictMatch (prev : Option Char) (s : List Char) : Option (String × Nat) :=
  if isWordOpt prev then none
  else
    let run := countWhile Char.isDigit s
    downTry
      (fun k =>
        if k ≤ run && !isWordOpt ((s.drop k).head?) then
          some (String.mk (s.take k), k)
        else none)
      18 8

/-- Backtracking matcher for the repetition `(?:\d[\s-]?){cnt..22}` of
`BANK_LAX_RE` followed by `\b`.  `lastc` is the last consumed character (for
the closing word boundary); the greedy order is: extend with the separator,
extend without it, then stop if at least 11 units were consumed and the
boundary holds.  Returns the number of characters consumed. -/
def laxGo : Nat → List Char → Option Char → Nat → Option Nat
  | 0, _, _, _ => none
  | fuel + 1, s, lastc, cnt =>
    let ext : Option Nat :=
      if cnt < 22 then
        match s with
        | c :: rest =>
          if c.isDigit then
            match rest with
            | c2 :: rest2 =>
              if isSep c2 then
                match laxGo fuel rest2 (some c2) (cnt + 1) with
                | some n => some (n + 2)
                | none => (laxGo fuel rest (some c) (cnt + 1)).map (fun n => n + 1)
              else (laxGo fuel rest (some c) (cnt + 1)).map (fun n => n + 1)
            | [] => (laxGo fuel [] (some c) (cnt + 1)).map (fun n => n + 1)
          else none
        | [] => none
      else none
    match ext with
    | some n => some n
    | none =>
      if 11 ≤ cnt && atBoundary lastc s.head? then some 0 else none

/-- `BANK_LAX_RE = \b(?:\d[\s-]?){11,22}\b`; `re.findall` returns the raw
matched substring (the pattern has no capture group). -/
def bankLaxMatch (prev : Option Char) (s : List Char) : Option (String × Nat) :=
  if isWordOpt prev then none
  else
    match laxGo 64 s none 0 with
    | some n => some (String.mk (s.take n), n)
    | none => none

/-- Character class `[A-Za-z\s.\-]` of the beneficiary-name capture. -/
def isBenefChar (c : Char) : Bool :=
  c.isAlpha || isPySpace c || c = '.' || c = '-'

/-- The cue alternation `(?:is|:|will\s+show\s+as)` of `BENEF_RE`
(IGNORECASE); the alternatives start with distinct characters, so the first
one that matches is the only possibility.  Returns the rest and the number of
consumed characters. -/
def benefCue (s : List Char) : Option (List Char × Nat) :=
  match matchLitCI "is".data s with
  | some r => some (r, 2)
  | none =>
    match s with
    | ':' :: r => some (r, 1)
    | _ =>
      match matchLitCI "will".data s with
      | none => none
      | some r1 =>
        let sp1 := countWhile isPySpace r1
        if sp1 = 0 then none
        else
          match matchLitCI "show".data (r1.drop sp1) with
          | none => none
          | some r2 =>
            let sp2 := countWhile isPySpace r2
            if sp2 = 0 then none
            else
              match matchLitCI "as".data (r2.drop sp2) with
              | none => none
              | some _ => some (r2.drop (sp2 + 2), 4 + sp1 + 4 + sp2 + 2)

/-- `BENEF_RE = \bbeneficiary(?:\s+name)?\s*(?:is|:|will\s+show\s+as)\s*`
`['\"]?([A-Za-z][A-Za-z\s.\-]{2,40})['\"]?` (IGNORECASE); `re.findall`
returns the capture group.  When `\s+name` is present the no-group
alternative necessarily fails at the cue, so no further backtracking over the
optional group is needed; likewise an optional quote that precedes a failing
capture cannot be rescued by not consuming it. -/
def benefMatch (prev : Option Char) (s : List Char) : Option (String × Nat) :=
  if !atBoundary prev s.head? then none
  else
    match matchLitCI "beneficiary".data s with
    | none => none
    | some r1 =>
      let spN := countWhile isPySpace r1
      let optGroup : List Char × Nat :=
        if spN ≠ 0 then
          match matchLitCI "name".data (r1.drop spN) with
          | some r => (r, 11 + spN + 4)
          | none => (r1, 11)
        else (r1, 11)
      let r2 := optGroup.1
      let used2 := optGroup.2
      let sp2 := countWhile isPySpace r2
      match benefCue (r2.drop sp2) with
      | none => none
      | some (r3, cueN) =>
        let sp3 := countWhile isPySpace r3
        let r4 := r3.drop sp3
        let quoted : List Char × Nat :=
          match r4 with
          | c :: rest => if c = aposChar || c = quotChar then (rest, 1) else (r4, 0)
          | [] => (r4, 0)
        let r5 := quoted.1
        match r5 with
        | [] => none
        | c0 :: rest =>
          if !c0.isAlpha then none
          else
            let run := countWhile isBenefChar rest
            let k := min run 40
            if k < 2 then none
            else
              let cap := c0 :: rest.take k
              let afterCap := rest.drop k
              let tq : Nat :=
                match afterCap with
                | c :: _ => if c = aposChar || c = quotChar then 1 else 0
                | [] => 0
              some (String.mk cap,
                used2 + sp2 + cueN + sp3 + quoted.2 + 1 + k + tq)

/-! ## `extractor.py` -/

/-- The fixed keyword vocabulary `KEYWORDS` of `extractor.py`. -/
def KEYWORDS : List String :=
  ["urgent", "immediately", "verify", "blocked", "suspended", "kyc", "otp",
   "account", "bank", "limit", "freeze", "locked", "click", "link", "payment",
   "transfer", "fee", "support", "helpline"]

/-- `TRAILING_PUNCT = ".,;:)]}>\"'"` as a character list. -/
def TRAILING_PUNCT : List Char :=
  ['.', ',', ';', ':', ')', ']', '}', '>', quotChar, aposChar]

/-- `_clean_url`: the loop `while u and u[-1] in TRAILING_PUNCT: u = u[:-1]`
removes the maximal trailing run of punctuation characters. -/
def cleanUrl (u : String) : String :=
  String.mk ((u.data.reverse.dropWhile (fun c => TRAILING_PUNCT.contains c)).reverse)

/-- `_unique`: order-preserving de-duplication that also drops empty strings
(`if not x: continue`). -/
def pyUnique (xs : List String) : List String :=
  xs.foldl (fun out x => if x = "" then out else if out.contains x then out else out ++ [x]) []

/-- The result record of `extract_all` (the dictionary it returns). -/
structure Extracted where
  upiIds : List String
  bankAccounts : List String
  phishingLinks : List String
  phoneNumbers : List String
  ifscCodes : List String
  beneficiaryNames : List String
  suspiciousKeywords : List String
deriving DecidableEq

/-- The three "critical safety filters" (A), (B), (C) applied to the candidate
bank-account list at the end of `extract_all`:
(A) drop candidates equal to a detected phone number;
(B) drop candidates equal to `"91" + <phone>`;
(C) drop 12-digit candidates starting with `91`. -/
def bankFilter (phones : List String) (banks : List String) : List String :=
  let banksA := banks.filter (fun b => !phones.contains b)
  let phone12 := phones.map (fun p => "91" ++ p)
  let banksB := banksA.filter (fun b => !phone12.contains b)
  banksB.filter (fun b => !(b.length = 12 && b.take 2 = "91"))

/-- `extract_all(text)` from `extractor.py`. -/
def extract_all (text : String) : Extracted :=
  let t := pystrip text.data
  let lower := pylower t
  let phishingLinks :=
    pyUnique (((findAll urlMatch t).map cleanUrl).filter (fun u => u ≠ ""))
  let phones := pyUnique (findAll phoneMatch t)
  let upis := pyUnique (findAll upiMatch t)
  let ifscs := pyUnique ((findAll ifscMatch t).map (fun x => String.mk (x.data.map Char.toUpper)))
  let beneficiaries :=
    pyUnique ((findAll benefMatch t).filterMap (fun m =>
      let name := collapseWs (pystrip m.data)
      if name ≠ [] && name.length ≤ 40 then some (String.mk name) else none))
  let banksRaw :=
    findAll bankStrictMatch t ++
      (findAll bankLaxMatch t).filterMap (fun raw =>
        let d := digitsOnly raw.data
        if 11 ≤ d.length && d.length ≤ 18 then some (String.mk d) else none)
  let banks := bankFilter phones (pyUnique banksRaw)
  let suspicious := pyUnique (KEYWORDS.filter (fun k => containsSub k.data lower))
  { upiIds := upis
    bankAccounts := banks
    phishingLinks := phishingLinks
    phoneNumbers := phones
    ifscCodes := ifscs
    beneficiaryNames := beneficiaries
    suspiciousKeywords := suspicious }

/-! ## `detector.py`

The six `STRONG_PATTERNS` are searched with `re.search` over the lowercased
text.  Patterns of the form `\bw1\b.*\b(w2|...)\b` are embedded as: some
occurrence of `w1` with word boundaries is followed, with no intervening
newline (`.` does not match `\n`), by an occurrence of one of the
alternatives with word boundaries. -/

/-- Does the bounded word `w` (lowercase letters) match at this position? -/
def wordHere (w : List Char) (prev : Option Char) (s : List Char) : Bool :=
  !isWordOpt prev && listStartsWith w s && !isWordOpt (s.drop w.length).head?

/-- Generic `re.search`: does the position predicate hold anywhere? -/
def searchPos (p : Option Char → List Char → Bool) : Option Char → List Char → Bool
  | prev, [] => p prev []
  | prev, c :: rest => p prev (c :: rest) || searchPos p (some c) rest

/-- `\bw\b` occurs somewhere in the text. -/
def hasWord (w : String) (t : List Char) : Bool :=
  searchPos (fun prev s => wordHere w.data prev s) none t

/-- One of the bounded words `alts` occurs at or after this position, with no
newline before it (the gap is matched by `.*`). -/
def altWordNoNL (alts : List String) : Option Char → List Char → Bool
  | prev, s =>
    if alts.any (fun w => wordHere w.data prev s) then true
    else
      match s with
      | [] => false
      | c :: rest => if c = '\n' then false else altWordNoNL alts (some c) rest

/-- `re.search(r"\bw1\b.*\b(alt1|alt2|...)\b", t)`. -/
def pairSearch (w1 : String) (alts : List String) (t : List Char) : Bool :=
  searchPos
    (fun prev s =>
      wordHere w1.data prev s &&
        altWordNoNL alts (w1.data.getLastD ' ') (s.drop w1.length))
    none t

/-- `\bhttp(s)?://` or `\bwww\.` occurs somewhere (no trailing boundary). -/
def hasUrlCue (t : List Char) : Bool :=
  searchPos
    (fun prev s =>
      (!isWordOpt prev &&
        (listStartsWith "https://".data s || listStartsWith "http://".data s)) ||
      (!isWordOpt prev && listStartsWith "www.".data s))
    none t

/-- `re.search(r"\bcustomer\s*care\b", t)`: `customer`, any whitespace run,
then `care` with a closing boundary. -/
def hasCustomerCare (t : List Char) : Bool :=
  searchPos
    (fun prev s =>
      !isWordOpt prev && listStartsWith "customer".data s &&
        (let r := s.drop 8
         let sp := countWhile isPySpace r
         listStartsWith "care".data (r.drop sp) &&
           !isWordOpt ((r.drop (sp + 4)).head?)))
    none t

/-- The six strong-pattern hits of `detect_scam`, in source order. -/
def strongHits (t : List Char) : Nat :=
  ([pairSearch "account" ["block", "blocked", "suspend", "suspended", "freeze", "frozen"] t,
    pairSearch "verify" ["now", "immediately"] t,
    hasWord "upi" t || hasWord "otp" t || hasWord "kyc" t,
    pairSearch "click" ["link"] t || hasUrlCue t,
    hasWord "refund" t || hasWord "cashback" t || pairSearch "loan" ["approved"] t,
    hasCustomerCare t || hasWord "helpline" t].filter id).length

/-- `MEDIUM_KEYWORDS` of `detector.py`. -/
def MEDIUM_KEYWORDS : List String :=
  ["urgent", "immediately", "today", "final", "limited time",
   "blocked", "suspended", "freeze", "verify", "update kyc"]

/-- Result record of `detect_scam`.  The probability is kept in hundredths
(`45*strong + 12*medium`, capped at 100): at every reachable input the float
expression `min(1.0, 0.45*strong + 0.12*medium)` of the source compares to
the threshold `0.45` exactly as this rational-in-hundredths does. -/
structure DetectResult where
  scamProbHundredths : Nat
  scamDetected : Bool
  scamType : String
  keywords : List String
deriving DecidableEq

/-- `detect_scam(text, history, metadata)` from `detector.py`; the `history`
and `metadata` arguments are unused by the source body and are omitted. -/
def detect_scam (text : String) : DetectResult :=
  let t := pylower text.data
  let strong := strongHits t
  let medium := (MEDIUM_KEYWORDS.filter (fun kw => containsSub kw.data t)).length
  let prob := min 100 (45 * strong + 12 * medium)
  let detected := decide (1 ≤ strong) || decide (3 ≤ medium) || decide (45 ≤ prob)
  let scamType :=
    if containsSub "upi".data t then "upi_fraud"
    else if containsSub "otp".data t || containsSub "kyc".data t then "bank_kyc"
    else if containsSub "http".data t || containsSub "www.".data t ||
              containsSub "link".data t || containsSub "click".data t then "phishing"
    else if containsSub "customer care".data t || containsSub "helpline".data t then
      "helpdesk_impersonation"
    else "unknown"
  let keywords :=
    (["blocked", "verify", "urgent", "otp", "kyc", "upi", "link", "refund", "cashback"] :
        List String).filter (fun kw => containsSub kw.data t)
  { scamProbHundredths := prob
    scamDetected := detected
    scamType := scamType
    keywords := keywords }

/-! ## `session_store.py` -/

/-- The `SessionState` dataclass.  `seenFingerprints` (never read or written by
any code path) and the `lastUpdated` wall-clock timestamp are omitted from the
embedding. -/
structure SessionState where
  sessionId : String
  scamDetected : Bool := false
  scamType : String := "unknown"
  stage : String := "HOOK"
  turnCount : Nat := 0
  completed : Bool := false
  callbackFailures : Nat := 0
  upiIds : List String := []
  bankAccounts : List String := []
  phishingLinks : List String := []
  phoneNumbers : List String := []
  ifscCodes : List String := []
  beneficiaryNames : List String := []
  suspiciousKeywords : List String := []
  personaSeed : Nat := 0
  lastIntent : String := ""
  repeatIntentCount : Nat := 0
  usedExcuses : List String := []
  lastHistoryLen : Nat := 0
deriving DecidableEq

/-- `SessionState.should_complete`. -/
def should_complete (s : SessionState) : Bool :=
  let categories : Nat :=
    (if !s.upiIds.isEmpty then 1 else 0) +
    (if !s.bankAccounts.isEmpty then 1 else 0) +
    (if !s.phishingLinks.isEmpty then 1 else 0) +
    (if !s.phoneNumbers.isEmpty then 1 else 0) +
    (if !s.ifscCodes.isEmpty then 1 else 0) +
    (if !s.beneficiaryNames.isEmpty then 1 else 0)
  if 3 ≤ categories && 10 ≤ s.turnCount then true
  else if 2 ≤ categories && 12 ≤ s.turnCount then true
  else if 1 ≤ categories && 16 ≤ s.turnCount then true
  else if 18 ≤ s.turnCount then true
  else false

/-- `SessionState.total_messages_exchanged`:
`int(self.lastHistoryLen) + 2`. -/
def total_messages_exchanged (s : SessionState) : Nat :=
  s.lastHistoryLen + 2

/-- The JSON payload built by `SessionState.build_callback_payload`.  The
`extractedIntelligence` dictionary is kept as an association list so that the
set of keys it carries is part of the model. -/
structure CallbackPayload where
  sessionId : String
  scamDetected : Bool
  totalMessagesExchanged : Nat
  extractedIntelligence : List (String × List String)
  agentNotes : String
deriving DecidableEq

/-- `SessionState.build_callback_payload`. -/
def build_callback_payload (s : SessionState) : CallbackPayload :=
  { sessionId := s.sessionId
    scamDetected := s.scamDetected
    totalMessagesExchanged := total_messages_exchanged s
    extractedIntelligence :=
      [("bankAccounts", s.bankAccounts),
       ("upiIds", s.upiIds),
       ("phishingLinks", s.phishingLinks),
       ("phoneNumbers", s.phoneNumbers),
       ("suspiciousKeywords", s.suspiciousKeywords)]
    agentNotes :=
      "Scam conversation engagement completed. scamType=" ++ s.scamType ++
        ", stage=" ++ s.stage ++ ", items=" ++
        toString (s.upiIds.length + s.bankAccounts.length +
          s.phishingLinks.length + s.phoneNumbers.length) }

/-- `load_session` when the key is not yet in the store: a fresh record with
the persona seed derived from the session key (`abs(hash(session_id)) % 3` in
the source; the hash value is abstracted as a parameter). -/
def initSession (sessionId : String) (seed : Nat) : SessionState :=
  { sessionId := sessionId, personaSeed := seed % 3 }

/-- `is_fresh_state`. -/
def is_fresh_state (s : SessionState) : Bool :=
  s.turnCount = 0 &&
  s.upiIds.isEmpty &&
  s.bankAccounts.isEmpty &&
  s.phishingLinks.isEmpty &&
  s.phoneNumbers.isEmpty &&
  s.ifscCodes.isEmpty &&
  s.beneficiaryNames.isEmpty &&
  s.suspiciousKeywords.isEmpty &&
  !s.scamDetected

/-- The merge loop `for v in vals: if v not in current: current.append(v)`
used by both the live path and the reconstruction path. -/
def mergeL (current vals : List String) : List String :=
  vals.foldl (fun cur v => if cur.contains v then cur else cur ++ [v]) current

/-- A `conversationHistory` entry: `some text` for a dict (with
`m.get("text") or ""` already applied), `none` for a non-dict entry, which
`rebuild_from_history` skips. -/
abbrev HistoryEntry := Option String

/-- Body of the `for m in history` loop of `rebuild_from_history`: merge the
six intelligence categories and the suspicious keywords extracted from one
history entry. -/
def rebuildStep (st : SessionState) (entry : HistoryEntry) : SessionState :=
  match entry with
  | none => st
  | some txt =>
    let t := pystripS txt
    if t = "" then st
    else
      let ex := extract_all t
      { st with
        upiIds := mergeL st.upiIds ex.upiIds
        bankAccounts := mergeL st.bankAccounts ex.bankAccounts
        phishingLinks := mergeL st.phishingLinks ex.phishingLinks
        phoneNumbers := mergeL st.phoneNumbers ex.phoneNumbers
        ifscCodes := mergeL st.ifscCodes ex.ifscCodes
        beneficiaryNames := mergeL st.beneficiaryNames ex.beneficiaryNames
        suspiciousKeywords := mergeL st.suspiciousKeywords ex.suspiciousKeywords }

/-- `rebuild_from_history(state, history, extract_all)`: set the turn-count
baseline `max(turnCount, len(history) // 2)` and merge the extraction results
of every history entry. -/
def rebuild_from_history (s : SessionState) (history : List HistoryEntry) : SessionState :=
  let s := { s with turnCount := max s.turnCount (history.length / 2) }
  history.foldl rebuildStep s

/-! ## `agent_engine.py`

The Python functions mutate `state` in place and `next_reply` returns
`(reply, {"stage": state.stage})`; `app.py` then writes that same stage back.
The embedding passes the state explicitly and returns the updated record. -/

/-- `_pick`: deterministic rotation through an option pool. -/
def _pick (s : SessionState) (options : List String) : String :=
  if options.isEmpty then ""
  else options.getD ((s.personaSeed + s.turnCount + s.repeatIntentCount) % options.length) ""

/-- `_set_intent`. -/
def _set_intent (s : SessionState) (intent : String) : SessionState :=
  if s.lastIntent = intent then
    { s with repeatIntentCount := s.repeatIntentCount + 1 }
  else
    { s with lastIntent := intent, repeatIntentCount := 0 }

/-- The excuse-rotation loop of the FRICTION branch: `_use_excuse_once` is
called on each candidate until one is unused; that one is recorded in
`usedExcuses` and returned ("" if all are used). -/
def pickExcuse (s : SessionState) : List String → String × SessionState
  | [] => ("", s)
  | e :: rest =>
    if s.usedExcuses.contains e then pickExcuse s rest
    else (e, { s with usedExcuses := s.usedExcuses ++ [e] })

/-- `_looks_placeholder_name`. -/
def _looks_placeholder_name (name : String) : Bool :=
  let n := pylower (pystrip name.data)
  (["john doe", "jane doe", "test", "demo", "sample", "fake", "beneficiary"] :
      List String).any (fun b => containsSub b.data n) ||
    n.length < 4

/-- `state.stage = <st>` as a record update. -/
def setStage (s : SessionState) (st : String) : SessionState :=
  { s with stage := st }

/-- `state.completed = True; state.stage = "EXIT"` of the newly-completed
branch. -/
def markCompletedExit (s : SessionState) : SessionState :=
  { s with completed := true, stage := "EXIT" }

/-- `return _pick(state, options), {"stage": state.stage}` — the common tail
of every branch of `next_reply`. -/
def replyWith (s : SessionState) (options : List String) : String × SessionState :=
  (_pick s options, s)

/-- The probe pool built by the VERIFY branch from the still-missing
cumulative intelligence of the session. -/
def verifyProbes (s : SessionState) : List String :=
  (if s.phishingLinks.isEmpty then
    ["Screenshot isn’t possible for me. Please paste the full verification link exactly (no short link).",
     "The link isn’t opening. Send the full URL again, without any extra punctuation."]
   else []) ++
  (if s.phoneNumbers.isEmpty then
    ["OTP is not coming. Which official support number should I call back right now?",
     "This SMS came from an unknown number. Send the helpline number I should call to verify."]
   else []) ++
  (if s.beneficiaryNames.isEmpty then
    ["My app shows ‘name mismatch’ sometimes. What exact beneficiary name should appear (full name)?"]
   else []) ++
  (if s.ifscCodes.isEmpty then
    ["If UPI fails, I’ll do bank transfer. Share account number + IFSC + branch city."]
   else []) ++
  ["The page is asking extra details. What exact steps should I follow to complete verification?",
   "Is the verification time-limited? How many minutes do I have?",
   "I’m going to call the bank first if OTP doesn’t come. Send the official number to call."]

/-- `exit_lines` of the already-completed branch. -/
def exitLinesDone : List String :=
  ["Okay, I’m checking now. Please wait a minute.",
   "One minute… app is loading.",
   "Hold on, network is weak here. I’m retrying."]

/-- `exit_lines` of the newly-completed branch. -/
def exitLinesNew : List String :=
  ["OTP still hasn’t come. I’m calling the bank helpline to complete verification.",
   "My app crashed. I’ll retry after network improves and finish verification.",
   "Network is very weak here. I’ll move outside and complete the verification after that.",
   "I’m going to verify this with the bank directly first. I’ll update you after they confirm."]

/-- `lines` of the placeholder-beneficiary branch. -/
def benefLines : List String :=
  ["My bank app blocks if the beneficiary name is generic. What *exact full name* will appear on the screen?",
   "That name looks like a placeholder. Tell me the exact beneficiary name as shown in bank (full name).",
   "Please send the beneficiary name exactly as it should appear (not a sample name)."]

/-- `link_tactics`. -/
def linkTactics : List String :=
  ["It opens but shows blank. Paste the full verification link again exactly (not short link).",
   "It says ‘invalid page’ on my phone. Send the full URL again without any extra dots/symbols.",
   "Okay don’t send screenshot. Just paste the exact full link and the steps I should follow.",
   "Send the full link again and the official helpline number in case the link fails."]

/-- `upi_tactics`. -/
def upiTactics : List String :=
  ["My UPI app shows ‘invalid handle’. Is it @ybl / @okhdfcbank / @upi type? Please confirm the handle part.",
   "Before I proceed, what beneficiary name should show for this UPI on the payment screen?",
   "Google Pay shows ‘name mismatch’. What exact name should appear for this UPI ID?",
   "If UPI fails, can I do bank transfer? Share account number + IFSC + branch city."]

/-- `bank_tactics`. -/
def bankTactics : List String :=
  ["Okay noted. My bank app needs IFSC + branch city. Please send IFSC and branch/region.",
   "What exact beneficiary name will appear for this account? I don’t want a mismatch.",
   "Send IFSC code + beneficiary name exactly as it should appear, and confirm it’s for verification/unblocking.",
   "Do you have an alternate account/UPI too? Send both so I can try if one fails."]

/-- `phone_tactics`. -/
def phoneTactics : List String :=
  ["Is this the official support number? Send the alternate helpline number too.",
   "Okay. What should I say on call to complete verification? Give the exact steps.",
   "If this number is busy, what’s the backup number/WhatsApp support?"]

/-- `hook_lines`. -/
def hookLines : List String :=
  ["Why is it getting blocked? What should I do right now?",
   "I don’t understand… is this really SBI? What’s the next step?",
   "I’m outside and panicking. Tell me what to do step by step."]

/-- `excuse_candidates`. -/
def excuseCandidates : List String :=
  ["I’m outside, network is weak.",
   "I’m using my mother’s phone, it’s slow.",
   "My UPI app is stuck on loading.",
   "The page is not opening properly on my phone."]

/-- `extract_lines`. -/
def extractLines : List String :=
  ["Okay. Send the full link + payment details (UPI or account + IFSC) together in one message.",
   "Send the official helpline number + full URL. If UPI fails, share bank account + IFSC too.",
   "What beneficiary name should appear and what’s the IFSC? Send everything in one message."]

/-- The tail of the FRICTION branch: the chosen excuse (first component)
prefixes the first line of the pool (`friction_lines`). -/
def frictionReply (p : String × SessionState) : String × SessionState :=
  replyWith p.2
    [p.1 ++ " Please send the full verification link and the helpline number you want me to call.",
     "Before I do anything, tell me the beneficiary name and IFSC. I don’t want to send to wrong person.",
     "OTP doesn’t seem to come. Which official support number should I call? Send the number.",
     "Send the details in one message: link + UPI (or account+IFSC) + beneficiary name."]

/-- `next_reply(state, msg_text, history, metadata)`; `history` and
`metadata` are unused by the source body and are omitted.  Each branch first
performs the source's in-place mutations (`stage`/`completed` updates,
`_set_intent`, the excuse rotation) and then returns the picked reply with
the updated record. -/
def next_reply (s : SessionState) (msgText : String) : String × SessionState :=
  if s.completed then
    replyWith (_set_intent (setStage s "EXIT") "EXIT") exitLinesDone
  else if should_complete s then
    replyWith (_set_intent (markCompletedExit s) "EXIT") exitLinesNew
  else if !(extract_all msgText).beneficiaryNames.isEmpty &&
      _looks_placeholder_name ((extract_all msgText).beneficiaryNames.getLastD "") then
    replyWith (_set_intent (setStage s "VERIFY") "ASK_BENEF_REAL") benefLines
  else if !(extract_all msgText).phishingLinks.isEmpty then
    replyWith (_set_intent (setStage s "FRICTION") "LINK_FRICTION") linkTactics
  else if !(extract_all msgText).upiIds.isEmpty then
    replyWith (_set_intent (setStage s "VERIFY") "ASK_UPI_DETAILS") upiTactics
  else if !(extract_all msgText).bankAccounts.isEmpty then
    replyWith (_set_intent (setStage s "VERIFY") "ASK_BANK_IFSC") bankTactics
  else if !(extract_all msgText).phoneNumbers.isEmpty then
    replyWith (_set_intent (setStage s "VERIFY") "ASK_PHONE_CONFIRM") phoneTactics
  else if s.stage = "HOOK" then
    replyWith (_set_intent (setStage s "FRICTION") "HOOK_TO_FRICTION") hookLines
  else if s.stage = "FRICTION" then
    frictionReply
      (pickExcuse (_set_intent (setStage s "EXTRACT") "FRICTION_TO_EXTRACT")
        excuseCandidates)
  else if s.stage = "EXTRACT" then
    replyWith (_set_intent (setStage s "VERIFY") "EXTRACT_TO_VERIFY") extractLines
  else if s.stage = "VERIFY" then
    replyWith (_set_intent s "VERIFY_PROBE") (verifyProbes (_set_intent s "VERIFY_PROBE"))
  else
    ("Can you resend the details clearly once? (full link + payment info + helpline)",
     _set_intent (setStage s "VERIFY") "FALLBACK")

/-! ## `callback_reporter.py`

The HTTP `POST` is external I/O; its outcome is a parameter of the embedding:
`none` models a raised exception (transport failure, timeout) and `some code`
a response with that status code.  `hasUrl` models whether `CALLBACK_URL` is
configured.  The function returns the updated state together with whether a
delivery attempt was actually made. -/

/-- `try_send_final_callback(state)`. -/
def try_send_final_callback (hasUrl : Bool) (resp : Option Nat) (s : SessionState) :
    SessionState × Bool :=
  if s.completed || 3 ≤ s.callbackFailures then (s, false)
  else if !s.scamDetected || !should_complete s then (s, false)
  else if !hasUrl then ({ s with callbackFailures := s.callbackFailures + 1 }, false)
  else
    match resp with
    | some code =>
      if 200 ≤ code && code < 300 then ({ s with completed := true }, true)
      else ({ s with callbackFailures := s.callbackFailures + 1 }, true)
    | none => ({ s with callbackFailures := s.callbackFailures + 1 }, true)

/-! ## The `/honeypot` orchestration step of `app.py`

The step runs after authentication and input validation, so it receives a
loaded session record, the (stripped, non-empty) message text and the
`conversationHistory` list.  `detectorInvoked` records whether the branch
`if not state.scamDetected: detect_scam(...)` ran, and `callbackAttempted`
whether the reporter actually performed a delivery attempt. -/

structure StepOut where
  state : SessionState
  reply : String
  detectorInvoked : Bool
  callbackAttempted : Bool
deriving DecidableEq

/-- The reconstruction phase of the step:
`if is_fresh_state(state) and history: rebuild_from_history(...)`. -/
def rebuildPhase (s : SessionState) (history : List HistoryEntry) : SessionState :=
  if is_fresh_state s && !history.isEmpty then rebuild_from_history s history else s

/-- The classification phase of the step (the body of
`if not state.scamDetected:`). -/
def applyDetect (s : SessionState) (msgText : String) : SessionState :=
  let det := detect_scam msgText
  { s with
    scamDetected := det.scamDetected
    scamType := det.scamType
    suspiciousKeywords := mergeL s.suspiciousKeywords det.keywords }

/-- `state.turnCount = (state.turnCount or 0) + 1` of the handler. -/
def tickTurn (s : SessionState) : SessionState :=
  { s with turnCount := s.turnCount + 1 }

/-- The live merge phase of the handler: it merges only the four categories
`upiIds`, `bankAccounts`, `phishingLinks`, `phoneNumbers` plus the suspicious
keywords (unlike `rebuild_from_history`, which also merges `ifscCodes` and
`beneficiaryNames`). -/
def mergePhase (s : SessionState) (ex : Extracted) : SessionState :=
  { s with
    upiIds := mergeL s.upiIds ex.upiIds
    bankAccounts := mergeL s.bankAccounts ex.bankAccounts
    phishingLinks := mergeL s.phishingLinks ex.phishingLinks
    phoneNumbers := mergeL s.phoneNumbers ex.phoneNumbers
    suspiciousKeywords := mergeL s.suspiciousKeywords ex.suspiciousKeywords }

/-- The classification phase: `if not state.scamDetected: detect_scam(...)`. -/
def classifyPhase (s : SessionState) (msgText : String) : SessionState :=
  if s.scamDetected then s else applyDetect s msgText

/-- The reply phase: agentic reply for scams, bland reply otherwise. -/
def replyPhase (s : SessionState) (msgText : String) : String × SessionState :=
  if s.scamDetected then next_reply s msgText
  else ("Okay. Can you explain what you need help with?", s)

/-- Turn counting, merging, classification and reply of the handler, applied
to the (possibly reconstructed) loaded state. -/
def corePhases (msgText : String) (s : SessionState) : String × SessionState :=
  replyPhase (classifyPhase (mergePhase (tickTurn s) (extract_all msgText)) msgText) msgText

/-- The body of the `/honeypot` handler of `app.py` (lines 84-143) for an
accepted request: reconstruct if fresh, count the turn, merge the extracted
intelligence, classify once, reply, and run the completion protocol. -/
def honeypotStep (hasUrl : Bool) (resp : Option Nat) (s0 : SessionState)
    (msgText : String) (history : List HistoryEntry) : StepOut :=
  { state :=
      (try_send_final_callback hasUrl resp (corePhases msgText (rebuildPhase s0 history)).2).1
    reply := (corePhases msgText (rebuildPhase s0 history)).1
    detectorInvoked :=
      !(mergePhase (tickTurn (rebuildPhase s0 history)) (extract_all msgText)).scamDetected
    callbackAttempted :=
      (try_send_final_callback hasUrl resp (corePhases msgText (rebuildPhase s0 history)).2).2 }

/-- Live processing of a list of messages in order, each as its own accepted
request carrying no `conversationHistory`. -/
def runLive (hasUrl : Bool) (resp : Option Nat) (s : SessionState) :
    List String → SessionState
  | [] => s
  | m :: rest => runLive hasUrl resp (honeypotStep hasUrl resp s m []).state rest

/-! ## General lemmas -/

theorem mergeL_nil (cur : List String) : mergeL cur [] = cur := rfl

theorem dropWhile_dropWhile (p : Char → Bool) (l : List Char) :
    (l.dropWhile p).dropWhile p = l.dropWhile p := by
  induction l with
  | nil => rfl
  | cons c t ih =>
    by_cases hc : p c
    · simpa [List.dropWhile_cons, hc] using ih
    · simp [List.dropWhile_cons, hc]

theorem dropWhile_append_eq (p : Char → Bool) (ys zs : List Char) :
    (ys ++ zs).dropWhile p
      = if (ys.dropWhile p).isEmpty then zs.dropWhile p else ys.dropWhile p ++ zs := by
  induction ys with
  | nil => simp
  | cons y t ih =>
    by_cases hy : p y
    · simpa [List.dropWhile_cons, hy] using ih
    · simp [List.dropWhile_cons, hy]

/-- Stripping a character run from the left end and from the right end commute. -/
theorem trim_comm (p : Char → Bool) (l : List Char) :
    ((l.reverse.dropWhile p).reverse).dropWhile p
      = (((l.dropWhile p).reverse).dropWhile p).reverse := by
  induction l with
  | nil => rfl
  | cons c t ih =>
    by_cases hc : p c
    · have key : (((c :: t).reverse.dropWhile p).reverse).dropWhile p
          = ((t.reverse.dropWhile p).reverse).dropWhile p := by
        rw [List.reverse_cons, dropWhile_append_eq]
        rcases h2 : t.reverse.dropWhile p with _ | ⟨z, zs⟩
        · simp [h2, List.dropWhile_cons, hc]
        · simp [h2, List.reverse_append, List.dropWhile_cons, hc]
      rw [key, ih]
      simp [List.dropWhile_cons, hc]
    · have key : (t.reverse ++ [c]).dropWhile p = t.reverse.dropWhile p ++ [c] := by
        rw [dropWhile_append_eq]
        rcases h2 : t.reverse.dropWhile p with _ | ⟨z, zs⟩
        · simp [h2, List.dropWhile_cons, hc]
        · simp [h2]
      simp [List.reverse_cons, List.dropWhile_cons, hc, key, List.reverse_append]

/-- Double application of the strip pipeline, written out explicitly. -/
theorem strip_pipeline_idem (p : Char → Bool) (l : List Char) :
    ((((((l.dropWhile p).reverse.dropWhile p).reverse).dropWhile p).reverse).dropWhile p).reverse
      = ((l.dropWhile p).reverse.dropWhile p).reverse := by
  rw [trim_comm p (l.dropWhile p), dropWhile_dropWhile, List.reverse_reverse,
    dropWhile_dropWhile]

/-- `pystrip` is idempotent. -/
theorem pystrip_idem (l : List Char) : pystrip (pystrip l) = pystrip l :=
  strip_pipeline_idem isPySpace l

/-- `extract_all` strips its input first, so stripping beforehand is harmless. -/
theorem extract_all_strip (t : String) : extract_all (pystripS t) = extract_all t := by
  unfold extract_all pystripS
  rw [show (String.mk (pystrip t.data)).data = pystrip t.data from rfl, pystrip_idem]

/-! ## Frame lemmas: which fields each engine function can touch -/

theorem set_intent_shape (s : SessionState) (i : String) :
    ∃ li n, _set_intent s i = { s with lastIntent := li, repeatIntentCount := n } := by
  unfold _set_intent
  split
  · exact ⟨s.lastIntent, s.repeatIntentCount + 1, rfl⟩
  · exact ⟨i, 0, rfl⟩

theorem pickExcuse_shape (s : SessionState) (l : List String) :
    ∃ ue, (pickExcuse s l).2 = { s with usedExcuses := ue } := by
  induction l with
  | nil => exact ⟨s.usedExcuses, rfl⟩
  | cons e rest ih =>
    unfold pickExcuse
    split
    · exact ih
    · exact ⟨s.usedExcuses ++ [e], rfl⟩

/-- The fields of a session record that neither the dialogue policy engine
(`next_reply`) nor the completion protocol (`try_send_final_callback`) may
modify, collected as one value so that preservation is a single equality. -/
structure FrameFields where
  sessionId : String
  scamDetected : Bool
  scamType : String
  turnCount : Nat
  upiIds : List String
  bankAccounts : List String
  phishingLinks : List String
  phoneNumbers : List String
  ifscCodes : List String
  beneficiaryNames : List String
  suspiciousKeywords : List String
  personaSeed : Nat
  lastHistoryLen : Nat

/-- Project a session record onto its policy-engine-immutable fields. -/
def frameOf (s : SessionState) : FrameFields :=
  { sessionId := s.sessionId
    scamDetected := s.scamDetected
    scamType := s.scamType
    turnCount := s.turnCount
    upiIds := s.upiIds
    bankAccounts := s.bankAccounts
    phishingLinks := s.phishingLinks
    phoneNumbers := s.phoneNumbers
    ifscCodes := s.ifscCodes
    beneficiaryNames := s.beneficiaryNames
    suspiciousKeywords := s.suspiciousKeywords
    personaSeed := s.personaSeed
    lastHistoryLen := s.lastHistoryLen }

theorem set_intent_frame (s : SessionState) (i : String) :
    frameOf (_set_intent s i) = frameOf s := by
  unfold _set_intent
  split <;> rfl

theorem set_intent_stage (s : SessionState) (i : String) :
    (_set_intent s i).stage = s.stage := by
  unfold _set_intent
  split <;> rfl

theorem set_intent_completed (s : SessionState) (i : String) :
    (_set_intent s i).completed = s.completed := by
  unfold _set_intent
  split <;> rfl

theorem pickExcuse_frame (s : SessionState) (l : List String) :
    frameOf (pickExcuse s l).2 = frameOf s := by
  induction l with
  | nil => rfl
  | cons e rest ih =>
    unfold pickExcuse
    split
    · exact ih
    · rfl

theorem pickExcuse_stage (s : SessionState) (l : List String) :
    (pickExcuse s l).2.stage = s.stage := by
  induction l with
  | nil => rfl
  | cons e rest ih =>
    unfold pickExcuse
    split
    · exact ih
    · rfl

theorem pickExcuse_completed (s : SessionState) (l : List String) :
    (pickExcuse s l).2.completed = s.completed := by
  induction l with
  | nil => rfl
  | cons e rest ih =>
    unfold pickExcuse
    split
    · exact ih
    · rfl

set_option maxHeartbeats 2000000 in
/-- `next_reply` only writes `stage`, `lastIntent`, `repeatIntentCount`,
`usedExcuses` and `completed`: the `frameOf` projection is untouched. -/
theorem next_reply_frame (s : SessionState) (m : String) :
    frameOf (next_reply s m).2 = frameOf s := by
  unfold next_reply
  repeat' split
  all_goals simp only [replyWith, frictionReply]
  all_goals simp only [set_intent_frame, pickExcuse_frame]
  all_goals rfl

theorem next_reply_turnCount (s : SessionState) (m : String) :
    ((next_reply s m).2).turnCount = s.turnCount :=
  congrArg FrameFields.turnCount (next_reply_frame s m)

theorem next_reply_upiIds (s : SessionState) (m : String) :
    ((next_reply s m).2).upiIds = s.upiIds :=
  congrArg FrameFields.upiIds (next_reply_frame s m)

theorem next_reply_bankAccounts (s : SessionState) (m : String) :
    ((next_reply s m).2).bankAccounts = s.bankAccounts :=
  congrArg FrameFields.bankAccounts (next_reply_frame s m)

theorem next_reply_phishingLinks (s : SessionState) (m : String) :
    ((next_reply s m).2).phishingLinks = s.phishingLinks :=
  congrArg FrameFields.phishingLinks (next_reply_frame s m)

theorem next_reply_phoneNumbers (s : SessionState) (m : String) :
    ((next_reply s m).2).phoneNumbers = s.phoneNumbers :=
  congrArg FrameFields.phoneNumbers (next_reply_frame s m)

theorem next_reply_scamDetected (s : SessionState) (m : String) :
    ((next_reply s m).2).scamDetected = s.scamDetected :=
  congrArg FrameFields.scamDetected (next_reply_frame s m)

theorem next_reply_scamType (s : SessionState) (m : String) :
    ((next_reply s m).2).scamType = s.scamType :=
  congrArg FrameFields.scamType (next_reply_frame s m)

/-- The completion protocol only writes `completed` and `callbackFailures`. -/
theorem try_send_frame (u : Bool) (r : Option Nat) (s : SessionState) :
    frameOf (try_send_final_callback u r s).1 = frameOf s := by
  unfold try_send_final_callback
  repeat' split
  all_goals rfl

theorem try_send_turnCount (u : Bool) (r : Option Nat) (s : SessionState) :
    (try_send_final_callback u r s).1.turnCount = s.turnCount :=
  congrArg FrameFields.turnCount (try_send_frame u r s)

theorem try_send_upiIds (u : Bool) (r : Option Nat) (s : SessionState) :
    (try_send_final_callback u r s).1.upiIds = s.upiIds :=
  congrArg FrameFields.upiIds (try_send_frame u r s)

theorem try_send_bankAccounts (u : Bool) (r : Option Nat) (s : SessionState) :
    (try_send_final_callback u r s).1.bankAccounts = s.bankAccounts :=
  congrArg FrameFields.bankAccounts (try_send_frame u r s)

theorem try_send_phishingLinks (u : Bool) (r : Option Nat) (s : SessionState) :
    (try_send_final_callback u r s).1.phishingLinks = s.phishingLinks :=
  congrArg FrameFields.phishingLinks (try_send_frame u r s)

theorem try_send_phoneNumbers (u : Bool) (r : Option Nat) (s : SessionState) :
    (try_send_final_callback u r s).1.phoneNumbers = s.phoneNumbers :=
  congrArg FrameFields.phoneNumbers (try_send_frame u r s)

theorem try_send_scamDetected (u : Bool) (r : Option Nat) (s : SessionState) :
    (try_send_final_callback u r s).1.scamDetected = s.scamDetected :=
  congrArg FrameFields.scamDetected (try_send_frame u r s)

theorem try_send_scamType (u : Bool) (r : Option Nat) (s : SessionState) :
    (try_send_final_callback u r s).1.scamType = s.scamType :=
  congrArg FrameFields.scamType (try_send_frame u r s)

/-! ## Reconstruction lemmas -/

/-- The all-empty extraction result. -/
def emptyExtracted : Extracted :=
  { upiIds := [], bankAccounts := [], phishingLinks := [], phoneNumbers := []
    ifscCodes := [], beneficiaryNames := [], suspiciousKeywords := [] }

/-- A message whose stripped text is empty extracts nothing. -/
theorem extract_all_of_strip_nil (t : String) (h : pystrip t.data = []) :
    extract_all t = emptyExtracted := by
  unfold extract_all
  rw [h]
  rfl

theorem pystripS_eq_empty_iff (t : String) : pystripS t = "" ↔ pystrip t.data = [] := by
  unfold pystripS
  constructor
  · intro h
    exact congrArg String.data h
  · intro h
    rw [h]

/-- The effect of one history entry on one intelligence list. -/
def entryMerge (f : Extracted → List String) (l : List String) (e : HistoryEntry) :
    List String :=
  match e with
  | none => l
  | some txt => mergeL l (f (extract_all txt))

theorem rebuildStep_scamDetected (st : SessionState) (e : HistoryEntry) :
    (rebuildStep st e).scamDetected = st.scamDetected := by
  unfold rebuildStep
  cases e with
  | none => rfl
  | some txt =>
    dsimp only
    split <;> rfl

theorem rebuildStep_scamType (st : SessionState) (e : HistoryEntry) :
    (rebuildStep st e).scamType = st.scamType := by
  unfold rebuildStep
  cases e with
  | none => rfl
  | some txt =>
    dsimp only
    split <;> rfl

theorem rebuildStep_turnCount (st : SessionState) (e : HistoryEntry) :
    (rebuildStep st e).turnCount = st.turnCount := by
  unfold rebuildStep
  cases e with
  | none => rfl
  | some txt =>
    dsimp only
    split <;> rfl

theorem rebuildStep_completed (st : SessionState) (e : HistoryEntry) :
    (rebuildStep st e).completed = st.completed := by
  unfold rebuildStep
  cases e with
  | none => rfl
  | some txt =>
    dsimp only
    split <;> rfl

theorem rebuildStep_upiIds (st : SessionState) (e : HistoryEntry) :
    (rebuildStep st e).upiIds = entryMerge (fun ex => ex.upiIds) st.upiIds e := by
  unfold rebuildStep entryMerge
  cases e with
  | none => rfl
  | some txt =>
    dsimp only
    split
    · rename_i hnil
      rw [(pystripS_eq_empty_iff txt).mp hnil |> extract_all_of_strip_nil txt]
      rfl
    · rw [show extract_all (pystripS txt) = extract_all txt from extract_all_strip txt]

theorem rebuildStep_bankAccounts (st : SessionState) (e : HistoryEntry) :
    (rebuildStep st e).bankAccounts = entryMerge (fun ex => ex.bankAccounts) st.bankAccounts e := by
  unfold rebuildStep entryMerge
  cases e with
  | none => rfl
  | some txt =>
    dsimp only
    split
    · rename_i hnil
      rw [(pystripS_eq_empty_iff txt).mp hnil |> extract_all_of_strip_nil txt]
      rfl
    · rw [show extract_all (pystripS txt) = extract_all txt from extract_all_strip txt]

theorem rebuildStep_phishingLinks (st : SessionState) (e : HistoryEntry) :
    (rebuildStep st e).phishingLinks = entryMerge (fun ex => ex.phishingLinks) st.phishingLinks e := by
  unfold rebuildStep entryMerge
  cases e with
  | none => rfl
  | some txt =>
    dsimp only
    split
    · rename_i hnil
      rw [(pystripS_eq_empty_iff txt).mp hnil |> extract_all_of_strip_nil txt]
      rfl
    · rw [show extract_all (pystripS txt) = extract_all txt from extract_all_strip txt]

theorem rebuildStep_phoneNumbers (st : SessionState) (e : HistoryEntry) :
    (rebuildStep st e).phoneNumbers = entryMerge (fun ex => ex.phoneNumbers) st.phoneNumbers e := by
  unfold rebuildStep entryMerge
  cases e with
  | none => rfl
  | some txt =>
    dsimp only
    split
    · rename_i hnil
      rw [(pystripS_eq_empty_iff txt).mp hnil |> extract_all_of_strip_nil txt]
      rfl
    · rw [show extract_all (pystripS txt) = extract_all txt from extract_all_strip txt]

theorem foldl_rebuildStep_scamDetected (h : List HistoryEntry) :
    ∀ s : SessionState, (h.foldl rebuildStep s).scamDetected = s.scamDetected := by
  induction h with
  | nil => intro s; rfl
  | cons e rest ih =>
    intro s
    rw [List.foldl_cons, ih, rebuildStep_scamDetected]

theorem foldl_rebuildStep_scamType (h : List HistoryEntry) :
    ∀ s : SessionState, (h.foldl rebuildStep s).scamType = s.scamType := by
  induction h with
  | nil => intro s; rfl
  | cons e rest ih =>
    intro s
    rw [List.foldl_cons, ih, rebuildStep_scamType]

theorem foldl_rebuildStep_turnCount (h : List HistoryEntry) :
    ∀ s : SessionState, (h.foldl rebuildStep s).turnCount = s.turnCount := by
  induction h with
  | nil => intro s; rfl
  | cons e rest ih =>
    intro s
    rw [List.foldl_cons, ih, rebuildStep_turnCount]

theorem foldl_rebuildStep_upiIds (h : List HistoryEntry) :
    ∀ s : SessionState,
      (h.foldl rebuildStep s).upiIds
        = h.foldl (entryMerge (fun ex => ex.upiIds)) s.upiIds := by
  induction h with
  | nil => intro s; rfl
  | cons e rest ih =>
    intro s
    rw [List.foldl_cons, List.foldl_cons, ih, rebuildStep_upiIds]

theorem foldl_rebuildStep_bankAccounts (h : List HistoryEntry) :
    ∀ s : SessionState,
      (h.foldl rebuildStep s).bankAccounts
        = h.foldl (entryMerge (fun ex => ex.bankAccounts)) s.bankAccounts := by
  induction h with
  | nil => intro s; rfl
  | cons e rest ih =>
    intro s
    rw [List.foldl_cons, List.foldl_cons, ih, rebuildStep_bankAccounts]

theorem foldl_rebuildStep_phishingLinks (h : List HistoryEntry) :
    ∀ s : SessionState,
      (h.foldl rebuildStep s).phishingLinks
        = h.foldl (entryMerge (fun ex => ex.phishingLinks)) s.phishingLinks := by
  induction h with
  | nil => intro s; rfl
  | cons e rest ih =>
    intro s
    rw [List.foldl_cons, List.foldl_cons, ih, rebuildStep_phishingLinks]

theorem foldl_rebuildStep_phoneNumbers (h : List HistoryEntry) :
    ∀ s : SessionState,
      (h.foldl rebuildStep s).phoneNumbers
        = h.foldl (entryMerge (fun ex => ex.phoneNumbers)) s.phoneNumbers := by
  induction h with
  | nil => intro s; rfl
  | cons e rest ih =>
    intro s
    rw [List.foldl_cons, List.foldl_cons, ih, rebuildStep_phoneNumbers]

theorem rebuild_scamDetected (s : SessionState) (h : List HistoryEntry) :
    (rebuild_from_history s h).scamDetected = s.scamDetected := by
  unfold rebuild_from_history
  rw [foldl_rebuildStep_scamDetected]

theorem rebuild_scamType (s : SessionState) (h : List HistoryEntry) :
    (rebuild_from_history s h).scamType = s.scamType := by
  unfold rebuild_from_history
  rw [foldl_rebuildStep_scamType]

theorem rebuild_turnCount (s : SessionState) (h : List HistoryEntry) :
    (rebuild_from_history s h).turnCount = max s.turnCount (h.length / 2) := by
  unfold rebuild_from_history
  rw [foldl_rebuildStep_turnCount]

theorem rebuild_upiIds (s : SessionState) (h : List HistoryEntry) :
    (rebuild_from_history s h).upiIds
      = h.foldl (entryMerge (fun ex => ex.upiIds)) s.upiIds := by
  unfold rebuild_from_history
  rw [foldl_rebuildStep_upiIds]

theorem rebuild_bankAccounts (s : SessionState) (h : List HistoryEntry) :
    (rebuild_from_history s h).bankAccounts
      = h.foldl (entryMerge (fun ex => ex.bankAccounts)) s.bankAccounts := by
  unfold rebuild_from_history
  rw [foldl_rebuildStep_bankAccounts]

theorem rebuild_phishingLinks (s : SessionState) (h : List HistoryEntry) :
    (rebuild_from_history s h).phishingLinks
      = h.foldl (entryMerge (fun ex => ex.phishingLinks)) s.phishingLinks := by
  unfold rebuild_from_history
  rw [foldl_rebuildStep_phishingLinks]

theorem rebuild_phoneNumbers (s : SessionState) (h : List HistoryEntry) :
    (rebuild_from_history s h).phoneNumbers
      = h.foldl (entryMerge (fun ex => ex.phoneNumbers)) s.phoneNumbers := by
  unfold rebuild_from_history
  rw [foldl_rebuildStep_phoneNumbers]

theorem rebuildPhase_scamDetected (s : SessionState) (h : List HistoryEntry) :
    (rebuildPhase s h).scamDetected = s.scamDetected := by
  unfold rebuildPhase
  split
  · exact rebuild_scamDetected s h
  · rfl

theorem rebuildPhase_scamType (s : SessionState) (h : List HistoryEntry) :
    (rebuildPhase s h).scamType = s.scamType := by
  unfold rebuildPhase
  split
  · exact rebuild_scamType s h
  · rfl

/-! ## Step-level lemmas -/

theorem honeypotStep_turnCount (u : Bool) (r : Option Nat) (s : SessionState)
    (m : String) (hist : List HistoryEntry) :
    (honeypotStep u r s m hist).state.turnCount = (rebuildPhase s hist).turnCount + 1 := by
  unfold honeypotStep corePhases replyPhase classifyPhase applyDetect mergePhase tickTurn
  generalize rebuildPhase s hist = s1
  dsimp only
  rw [try_send_turnCount]
  split
  · rw [next_reply_turnCount]
  · split
    · rw [next_reply_turnCount]
    · rfl

theorem honeypotStep_upiIds (u : Bool) (r : Option Nat) (s : SessionState)
    (m : String) (hist : List HistoryEntry) :
    (honeypotStep u r s m hist).state.upiIds
      = mergeL (rebuildPhase s hist).upiIds (extract_all m).upiIds := by
  unfold honeypotStep corePhases replyPhase classifyPhase applyDetect mergePhase tickTurn
  generalize rebuildPhase s hist = s1
  dsimp only
  rw [try_send_upiIds]
  split
  · rw [next_reply_upiIds]
  · split
    · rw [next_reply_upiIds]
    · rfl

theorem honeypotStep_bankAccounts (u : Bool) (r : Option Nat) (s : SessionState)
    (m : String) (hist : List HistoryEntry) :
    (honeypotStep u r s m hist).state.bankAccounts
      = mergeL (rebuildPhase s hist).bankAccounts (extract_all m).bankAccounts := by
  unfold honeypotStep corePhases replyPhase classifyPhase applyDetect mergePhase tickTurn
  generalize rebuildPhase s hist = s1
  dsimp only
  rw [try_send_bankAccounts]
  split
  · rw [next_reply_bankAccounts]
  · split
    · rw [next_reply_bankAccounts]
    · rfl

theorem honeypotStep_phishingLinks (u : Bool) (r : Option Nat) (s : SessionState)
    (m : String) (hist : List HistoryEntry) :
    (honeypotStep u r s m hist).state.phishingLinks
      = mergeL (rebuildPhase s hist).phishingLinks (extract_all m).phishingLinks := by
  unfold honeypotStep corePhases replyPhase classifyPhase applyDetect mergePhase tickTurn
  generalize rebuildPhase s hist = s1
  dsimp only
  rw [try_send_phishingLinks]
  split
  · rw [next_reply_phishingLinks]
  · split
    · rw [next_reply_phishingLinks]
    · rfl

theorem honeypotStep_phoneNumbers (u : Bool) (r : Option Nat) (s : SessionState)
    (m : String) (hist : List HistoryEntry) :
    (honeypotStep u r s m hist).state.phoneNumbers
      = mergeL (rebuildPhase s hist).phoneNumbers (extract_all m).phoneNumbers := by
  unfold honeypotStep corePhases replyPhase classifyPhase applyDetect mergePhase tickTurn
  generalize rebuildPhase s hist = s1
  dsimp only
  rw [try_send_phoneNumbers]
  split
  · rw [next_reply_phoneNumbers]
  · split
    · rw [next_reply_phoneNumbers]
    · rfl

theorem rebuildPhase_nil (s : SessionState) : rebuildPhase s [] = s := by
  unfold rebuildPhase
  simp

theorem honeypotStep_detectorInvoked (u : Bool) (r : Option Nat) (s : SessionState)
    (m : String) (hist : List HistoryEntry) :
    (honeypotStep u r s m hist).detectorInvoked = !s.scamDetected := by
  unfold honeypotStep mergePhase tickTurn
  dsimp only
  rw [rebuildPhase_scamDetected]

theorem honeypotStep_scamDetected_frozen (u : Bool) (r : Option Nat) (s : SessionState)
    (m : String) (hist : List HistoryEntry) (h : s.scamDetected = true) :
    (honeypotStep u r s m hist).state.scamDetected = true := by
  have h1 : (rebuildPhase s hist).scamDetected = true := by
    rw [rebuildPhase_scamDetected]; exact h
  unfold honeypotStep corePhases replyPhase classifyPhase mergePhase tickTurn
  dsimp only
  rw [try_send_scamDetected]
  simp only [h1, if_true, next_reply_scamDetected]

theorem honeypotStep_scamType_frozen (u : Bool) (r : Option Nat) (s : SessionState)
    (m : String) (hist : List HistoryEntry) (h : s.scamDetected = true) :
    (honeypotStep u r s m hist).state.scamType = s.scamType := by
  have h1 : (rebuildPhase s hist).scamDetected = true := by
    rw [rebuildPhase_scamDetected]; exact h
  have h2 : (rebuildPhase s hist).scamType = s.scamType := rebuildPhase_scamType s hist
  unfold honeypotStep corePhases replyPhase classifyPhase mergePhase tickTurn
  dsimp only
  rw [try_send_scamType]
  simp only [h1, if_true, next_reply_scamType]
  exact h2

/-! ## Live-run characterization -/

theorem runLive_upiIds (u : Bool) (r : Option Nat) (ms : List String) :
    ∀ s : SessionState,
      (runLive u r s ms).upiIds
        = ms.foldl (fun l t => mergeL l (extract_all t).upiIds) s.upiIds := by
  induction ms with
  | nil => intro s; rfl
  | cons m rest ih =>
    intro s
    show (runLive u r (honeypotStep u r s m []).state rest).upiIds = _
    rw [ih, List.foldl_cons, honeypotStep_upiIds, rebuildPhase_nil]

theorem runLive_bankAccounts (u : Bool) (r : Option Nat) (ms : List String) :
    ∀ s : SessionState,
      (runLive u r s ms).bankAccounts
        = ms.foldl (fun l t => mergeL l (extract_all t).bankAccounts) s.bankAccounts := by
  induction ms with
  | nil => intro s; rfl
  | cons m rest ih =>
    intro s
    show (runLive u r (honeypotStep u r s m []).state rest).bankAccounts = _
    rw [ih, List.foldl_cons, honeypotStep_bankAccounts, rebuildPhase_nil]

theorem runLive_phishingLinks (u : Bool) (r : Option Nat) (ms : List String) :
    ∀ s : SessionState,
      (runLive u r s ms).phishingLinks
        = ms.foldl (fun l t => mergeL l (extract_all t).phishingLinks) s.phishingLinks := by
  induction ms with
  | nil => intro s; rfl
  | cons m rest ih =>
    intro s
    show (runLive u r (honeypotStep u r s m []).state rest).phishingLinks = _
    rw [ih, List.foldl_cons, honeypotStep_phishingLinks, rebuildPhase_nil]

theorem runLive_phoneNumbers (u : Bool) (r : Option Nat) (ms : List String) :
    ∀ s : SessionState,
      (runLive u r s ms).phoneNumbers
        = ms.foldl (fun l t => mergeL l (extract_all t).phoneNumbers) s.phoneNumbers := by
  induction ms with
  | nil => intro s; rfl
  | cons m rest ih =>
    intro s
    show (runLive u r (honeypotStep u r s m []).state rest).phoneNumbers = _
    rw [ih, List.foldl_cons, honeypotStep_phoneNumbers, rebuildPhase_nil]

/-- Folding `entryMerge` over `T.map some` is the plain fold over `T`. -/
theorem foldl_entryMerge_map_some (f : Extracted → List String) (T : List String) :
    ∀ l : List String,
      (T.map some).foldl (entryMerge f) l
        = T.foldl (fun l t => mergeL l (f (extract_all t))) l := by
  induction T with
  | nil => intro l; rfl
  | cons t ts ih =>
    intro l
    rw [List.map_cons, List.foldl_cons, List.foldl_cons, ih]
    rfl

/-- On a fresh record with a non-empty history, the reconstruction phase runs
`rebuild_from_history`. -/
theorem rebuildPhase_of_fresh (s : SessionState) (hist : List HistoryEntry)
    (h1 : is_fresh_state s = true) (h2 : hist ≠ []) :
    rebuildPhase s hist = rebuild_from_history s hist := by
  unfold rebuildPhase
  have h3 : hist.isEmpty = false := by
    cases hist with
    | nil => exact absurd rfl h2
    | cons a l => rfl
  rw [h1, h3]
  rfl

/-! ## The claims -/

/-- The number of non-empty lists among the six intelligence categories, as
described by the completion schedule of the spec. -/
def categoryCount (s : SessionState) : Nat :=
  (if !s.upiIds.isEmpty then 1 else 0) +
  (if !s.bankAccounts.isEmpty then 1 else 0) +
  (if !s.phishingLinks.isEmpty then 1 else 0) +
  (if !s.phoneNumbers.isEmpty then 1 else 0) +
  (if !s.ifscCodes.isEmpty then 1 else 0) +
  (if !s.beneficiaryNames.isEmpty then 1 else 0)

/-- The escalating completion schedule as a function of the category count
and the turn count. -/
def scheduleBool (C t : Nat) : Bool :=
  if 3 ≤ C && 10 ≤ t then true
  else if 2 ≤ C && 12 ≤ t then true
  else if 1 ≤ C && 16 ≤ t then true
  else if 18 ≤ t then true
  else false

theorem should_complete_eq (s : SessionState) :
    should_complete s = scheduleBool (categoryCount s) s.turnCount := rfl

theorem scheduleBool_iff (C t : Nat) :
    scheduleBool C t = true ↔
      (3 ≤ C ∧ 10 ≤ t) ∨ (2 ≤ C ∧ 12 ≤ t) ∨ (1 ≤ C ∧ 16 ≤ t) ∨ 18 ≤ t := by
  unfold scheduleBool
  split_ifs with h1 h2 h3 h4 <;> simp_all

theorem categoryCount_set_turnCount (s : SessionState) (t : Nat) :
    categoryCount { s with turnCount := t } = categoryCount s := rfl

/-- C5: `should_complete` returns true exactly under the escalating schedule
of the spec ((3 cats, 10 turns), (2, 12), (1, 16), or 18 turns
unconditionally), and is monotonic in the turn count for fixed
intelligence. -/
theorem C5_should_complete_schedule :
    (∀ s : SessionState,
      should_complete s = true ↔
        (3 ≤ categoryCount s ∧ 10 ≤ s.turnCount) ∨
        (2 ≤ categoryCount s ∧ 12 ≤ s.turnCount) ∨
        (1 ≤ categoryCount s ∧ 16 ≤ s.turnCount) ∨
        18 ≤ s.turnCount) ∧
    (∀ (s : SessionState) (t1 t2 : Nat), t1 ≤ t2 →
      should_complete { s with turnCount := t1 } = true →
      should_complete { s with turnCount := t2 } = true) := by
  constructor
  · intro s
    rw [should_complete_eq]
    exact scheduleBool_iff (categoryCount s) s.turnCount
  · intro s t1 t2 hle h
    rw [should_complete_eq, categoryCount_set_turnCount, scheduleBool_iff] at h ⊢
    dsimp only at h ⊢
    omega

/-- Session with two intelligence categories used to instantiate C5. -/
def sessC5 : SessionState :=
  { initSession "session-c5" 0 with
    phishingLinks := ["http://x.co"], phoneNumbers := ["9876543210"] }

/-- Witness for C5 at a concrete session: two categories at turn 12 complete,
and completion persists to turn 20. -/
theorem C5_should_complete_schedule_witness :
    (should_complete sessC5 = true ↔
      (3 ≤ categoryCount sessC5 ∧ 10 ≤ sessC5.turnCount) ∨
      (2 ≤ categoryCount sessC5 ∧ 12 ≤ sessC5.turnCount) ∨
      (1 ≤ categoryCount sessC5 ∧ 16 ≤ sessC5.turnCount) ∨
      18 ≤ sessC5.turnCount) ∧
    should_complete { sessC5 with turnCount := 20 } = true :=
  ⟨C5_should_complete_schedule.1 sessC5,
   C5_should_complete_schedule.2 sessC5 12 20 (by decide) (by decide)⟩

/-- C6: per accepted message the orchestration step adds exactly 1 to the
(possibly just reconstructed) turn count, and the dialogue policy engine
never modifies the turn count. -/
theorem C6_turn_count_increment :
    (∀ (s : SessionState) (m : String), ((next_reply s m).2).turnCount = s.turnCount) ∧
    (∀ (u : Bool) (r : Option Nat) (s : SessionState) (m : String)
        (hist : List HistoryEntry),
      (honeypotStep u r s m hist).state.turnCount = (rebuildPhase s hist).turnCount + 1) :=
  ⟨next_reply_turnCount, honeypotStep_turnCount⟩

/-- Completed session used to instantiate C2. -/
def sessC2 : SessionState := { initSession "session-c2" 0 with completed := true }

/-- C2: once `completed` is true, `try_send_final_callback` makes no delivery
attempt and leaves the record unchanged, no matter how often it runs. -/
theorem C2_report_noop_after_completed :
    ∀ (u : Bool) (r : Option Nat) (s : SessionState), s.completed = true →
      try_send_final_callback u r s = (s, false) ∧
      ∀ n : Nat, (fun st => (try_send_final_callback u r st).1)^[n] s = s := by
  intro u r s h
  have h1 : try_send_final_callback u r s = (s, false) := by
    unfold try_send_final_callback
    simp [h]
  refine ⟨h1, fun n => Function.iterate_fixed ?_ n⟩
  show (try_send_final_callback u r s).1 = s
  rw [h1]

/-- Witness for C2: a concrete completed session, with 1000 repeated calls. -/
theorem C2_report_noop_after_completed_witness :
    try_send_final_callback false none sessC2 = (sessC2, false) ∧
    (fun st => (try_send_final_callback false none st).1)^[1000] sessC2 = sessC2 :=
  ⟨(C2_report_noop_after_completed false none sessC2 rfl).1,
   (C2_report_noop_after_completed false none sessC2 rfl).2 1000⟩

/-- C9 (amended): the classifier branch runs exactly when `scamDetected` is
still false at the start of the turn; once `scamDetected` is true, later
turns never invoke it and never change `scamDetected` or `scamType`. -/
theorem C9_classifier_gating :
    ∀ (u : Bool) (r : Option Nat) (s : SessionState) (m : String)
      (hist : List HistoryEntry),
      (honeypotStep u r s m hist).detectorInvoked = !s.scamDetected ∧
      (s.scamDetected = true →
        (honeypotStep u r s m hist).state.scamDetected = true ∧
        (honeypotStep u r s m hist).state.scamType = s.scamType) :=
  fun u r s m hist =>
    ⟨honeypotStep_detectorInvoked u r s m hist,
     fun h => ⟨honeypotStep_scamDetected_frozen u r s m hist h,
               honeypotStep_scamType_frozen u r s m hist h⟩⟩

/-- Already-classified session used to instantiate C9. -/
def sessC9 : SessionState :=
  { initSession "session-c9" 0 with scamDetected := true, scamType := "upi_fraud" }

/-- Witness for C9 (amended) at a concrete classified session. -/
theorem C9_classifier_gating_witness :
    (honeypotStep false none sessC9 "hello" []).detectorInvoked = !sessC9.scamDetected ∧
    (honeypotStep false none sessC9 "hello" []).state.scamDetected = true ∧
    (honeypotStep false none sessC9 "hello" []).state.scamType = sessC9.scamType :=
  ⟨(C9_classifier_gating false none sessC9 "hello" []).1,
   (C9_classifier_gating false none sessC9 "hello" []).2 rfl⟩

/-- C9 (counterexample): on a session whose first message is not classified
as a scam, the classifier branch runs again on the second message — it is
not invoked at most once per session record. -/
theorem C9_classifier_once_cex :
    (honeypotStep false none (initSession "session-x" 0) "hello" []).detectorInvoked = true ∧
    (honeypotStep false none
        (honeypotStep false none (initSession "session-x" 0) "hello" []).state
        "hello" []).detectorInvoked = true ∧
    (honeypotStep false none (initSession "session-x" 0) "hello" []).state.scamDetected
      = false :=
  ⟨rfl, rfl, rfl⟩

/-- Scam session one turn before the hard completion ceiling, used for C1. -/
def sessC1 : SessionState :=
  { initSession "session-c1" 0 with
    scamDetected := true, scamType := "upi_fraud", turnCount := 17 }

/-- C1 (failing input): on the turn where the completion predicate first
fires, `next_reply` itself sets `completed := true`, so the subsequent
`try_send_final_callback` sees `completed` and never attempts the delivery —
even though the collector is configured and would answer 200. -/
theorem C1_policy_engine_sets_completed :
    sessC1.completed = false ∧
    (honeypotStep true (some 200) sessC1 "hello" []).state.completed = true ∧
    (honeypotStep true (some 200) sessC1 "hello" []).callbackAttempted = false :=
  ⟨rfl, rfl, rfl⟩

/-- Membership in the filtered bank-account list implies all three safety
conditions of the filters (A), (B), (C). -/
theorem mem_bankFilter (phones banks : List String) (b : String)
    (hb : b ∈ bankFilter phones banks) :
    b ∉ phones ∧ (∀ p ∈ phones, b ≠ "91" ++ p) ∧
      ¬(b.length = 12 ∧ b.take 2 = "91") := by
  unfold bankFilter at hb
  rw [List.mem_filter] at hb
  obtain ⟨hb2, h3⟩ := hb
  rw [List.mem_filter] at hb2
  obtain ⟨hb1, h2⟩ := hb2
  rw [List.mem_filter] at hb1
  obtain ⟨_, h1⟩ := hb1
  refine ⟨?_, ?_, ?_⟩
  · have h1' : phones.contains b = false := by
      cases hc : phones.contains b
      · rfl
      · rw [hc] at h1; exact absurd h1 (by decide)
    simp at h1'
    exact h1'
  · intro p hp hcontra
    have h2' : (phones.map (fun q => "91" ++ q)).contains b = false := by
      cases hc : (phones.map (fun q => "91" ++ q)).contains b
      · rfl
      · rw [hc] at h2; exact absurd h2 (by decide)
    simp only [Bool.eq_false_iff] at h2'
    apply h2'
    have : b ∈ phones.map (fun q => "91" ++ q) := by
      rw [hcontra]
      exact List.mem_map_of_mem (fun q => "91" ++ q) hp
    simpa [List.contains_iff_exists_mem_beq] using this
  · intro hcontra
    simp [hcontra.1, hcontra.2] at h3

/-- The bank-account list of `extract_all` is the `bankFilter` of some
candidate list against the extracted phone numbers. -/
theorem extract_all_bankAccounts_eq (text : String) :
    ∃ banks0, (extract_all text).bankAccounts
      = bankFilter (extract_all text).phoneNumbers banks0 :=
  ⟨_, rfl⟩

/-- C3: no extracted value is both a bank account and a phone number, and no
bank-account candidate equal to a detected phone number or to `"91" +` a
detected phone number survives the filters. -/
theorem C3_banks_phones_disjoint :
    ∀ (text b : String),
      b ∈ (extract_all text).bankAccounts →
        b ∉ (extract_all text).phoneNumbers ∧
        ∀ p ∈ (extract_all text).phoneNumbers, b ≠ "91" ++ p := by
  intro text b hb
  obtain ⟨banks0, heq⟩ := extract_all_bankAccounts_eq text
  rw [heq] at hb
  obtain ⟨h1, h2, _⟩ := mem_bankFilter _ _ b hb
  exact ⟨h1, h2⟩

/-- Witness for C3 on a message carrying a genuine 12-digit account and a
phone number. -/
theorem C3_banks_phones_disjoint_witness :
    "123456789012" ∉ (extract_all "acct 123456789012 call 9876543210").phoneNumbers ∧
    "123456789012" ≠ "91" ++ "9876543210" :=
  ⟨(C3_banks_phones_disjoint "acct 123456789012 call 9876543210" "123456789012"
      (by decide)).1,
   (C3_banks_phones_disjoint "acct 123456789012 call 9876543210" "123456789012"
      (by decide)).2 "9876543210" (by decide)⟩

/-- C10: every 12-digit bank-account candidate starting with `91` is excluded
from `bankAccounts`, for every input text — even when no phone number was
detected (filter (C) fires unconditionally). -/
theorem C10_bank_91_twelve_digit_excluded :
    ∀ (text b : String),
      b ∈ (extract_all text).bankAccounts →
        ¬(b.length = 12 ∧ b.take 2 = "91") := by
  intro text b hb
  obtain ⟨banks0, heq⟩ := extract_all_bankAccounts_eq text
  rw [heq] at hb
  exact (mem_bankFilter _ _ b hb).2.2

/-- Witness for C10: a 13-digit account starting with `91` in a text with no
detected phone numbers is kept, and the theorem applies to it. -/
theorem C10_bank_91_twelve_digit_excluded_witness :
    "9123456789012" ∈ (extract_all "id 9123456789012 here").bankAccounts ∧
    ¬("9123456789012".length = 12 ∧ "9123456789012".take 2 = "91") :=
  ⟨by decide,
   C10_bank_91_twelve_digit_excluded "id 9123456789012 here" "9123456789012" (by decide)⟩

/-- Generic reconstruction-equivalence argument for one intelligence list:
if the step merges the list exactly as `fs`/`fe` say, then reconstructing a
fresh record from the transcript and processing the next message live agrees
with processing the whole transcript live. -/
theorem path_field_agree
    (fs : SessionState → List String) (fe : Extracted → List String)
    (hstep : ∀ (u : Bool) (r : Option Nat) (s : SessionState) (m : String)
        (hist : List HistoryEntry),
      fs (honeypotStep u r s m hist).state
        = mergeL (fs (rebuildPhase s hist)) (fe (extract_all m)))
    (hrun : ∀ (u : Bool) (r : Option Nat) (ms : List String) (s : SessionState),
      fs (runLive u r s ms)
        = ms.foldl (fun l t => mergeL l (fe (extract_all t))) (fs s))
    (hreb : ∀ (s : SessionState) (h : List HistoryEntry),
      fs (rebuild_from_history s h) = h.foldl (entryMerge fe) (fs s))
    (hinit : ∀ (sid : String) (seed : Nat), fs (initSession sid seed) = [])
    (u : Bool) (r : Option Nat) (sid : String) (seed : Nat)
    (T : List String) (m : String) :
    fs (honeypotStep u r (initSession sid seed) m (T.map some)).state
      = fs (runLive u r (initSession sid seed) (T ++ [m])) := by
  have hphase : fs (rebuildPhase (initSession sid seed) (T.map some))
      = T.foldl (fun l t => mergeL l (fe (extract_all t))) [] := by
    cases T with
    | nil =>
      rw [List.map_nil, rebuildPhase_nil, hinit, List.foldl_nil]
    | cons t ts =>
      rw [rebuildPhase_of_fresh (initSession sid seed) ((t :: ts).map some) rfl (by simp),
        hreb, foldl_entryMerge_map_some, hinit]
  rw [hstep, hrun, List.foldl_append, List.foldl_cons, List.foldl_nil, hphase, hinit]

/-- C4 (amended): reconstructing a fresh record from transcript `T` and then
processing live message `m` yields the same four live-merged intelligence
lists (`upiIds`, `bankAccounts`, `phishingLinks`, `phoneNumbers`) as
processing every message of `T` and then `m` live from the start.  (The full
records differ: see the counterexample.) -/
theorem C4_reconstruction_intel_lists_agree :
    ∀ (u : Bool) (r : Option Nat) (sid : String) (seed : Nat)
      (T : List String) (m : String),
      (honeypotStep u r (initSession sid seed) m (T.map some)).state.upiIds
        = (runLive u r (initSession sid seed) (T ++ [m])).upiIds ∧
      (honeypotStep u r (initSession sid seed) m (T.map some)).state.bankAccounts
        = (runLive u r (initSession sid seed) (T ++ [m])).bankAccounts ∧
      (honeypotStep u r (initSession sid seed) m (T.map some)).state.phishingLinks
        = (runLive u r (initSession sid seed) (T ++ [m])).phishingLinks ∧
      (honeypotStep u r (initSession sid seed) m (T.map some)).state.phoneNumbers
        = (runLive u r (initSession sid seed) (T ++ [m])).phoneNumbers :=
  fun u r sid seed T m =>
    ⟨path_field_agree (fun s => s.upiIds) (fun ex => ex.upiIds)
        honeypotStep_upiIds runLive_upiIds rebuild_upiIds (fun _ _ => rfl) u r sid seed T m,
     path_field_agree (fun s => s.bankAccounts) (fun ex => ex.bankAccounts)
        honeypotStep_bankAccounts runLive_bankAccounts rebuild_bankAccounts
        (fun _ _ => rfl) u r sid seed T m,
     path_field_agree (fun s => s.phishingLinks) (fun ex => ex.phishingLinks)
        honeypotStep_phishingLinks runLive_phishingLinks rebuild_phishingLinks
        (fun _ _ => rfl) u r sid seed T m,
     path_field_agree (fun s => s.phoneNumbers) (fun ex => ex.phoneNumbers)
        honeypotStep_phoneNumbers runLive_phoneNumbers rebuild_phoneNumbers
        (fun _ _ => rfl) u r sid seed T m⟩

/-- C4 (counterexample): reconstruction is not idempotent with incremental
processing.  For the one-message transcript `T = ["hello"]` and live message
`"hello"`, reconstruction sets the turn-count floor `len(history) // 2 = 0`
(not `len(T) = 1`), so the rebuilt-then-live path ends at `turnCount = 1`
while the all-live path ends at `turnCount = 2`: the session records
differ. -/
theorem C4_reconstruction_equivalence_cex :
    (honeypotStep false none (initSession "session-r" 0) "hello" [some "hello"]).state.turnCount
      = 1 ∧
    (runLive false none (initSession "session-r" 0) ["hello", "hello"]).turnCount = 2 :=
  ⟨rfl, rfl⟩

/-- Session with accumulated IFSC and beneficiary intelligence, used to show
what the callback payload omits (C7). -/
def sessC7 : SessionState :=
  { initSession "session-c7" 1 with
    scamDetected := true, scamType := "upi_fraud", stage := "VERIFY", turnCount := 5,
    upiIds := ["fraud@ybl"], ifscCodes := ["SBIN0001234"],
    beneficiaryNames := ["Rahul Sharma"] }

/-- C7 (counterexample): the delivery payload does not carry all six
intelligence lists — `ifscCodes` and `beneficiaryNames` are missing from
`extractedIntelligence` even when the session holds such intelligence — and
`totalMessagesExchanged` is `lastHistoryLen + 2` (here 2), not the number of
turns exchanged (here 5). -/
theorem C7_payload_six_lists_cex :
    ((build_callback_payload sessC7).extractedIntelligence.map Prod.fst)
      = ["bankAccounts", "upiIds", "phishingLinks", "phoneNumbers", "suspiciousKeywords"] ∧
    (((build_callback_payload sessC7).extractedIntelligence.map Prod.fst).contains
        "ifscCodes") = false ∧
    (((build_callback_payload sessC7).extractedIntelligence.map Prod.fst).contains
        "beneficiaryNames") = false ∧
    sessC7.ifscCodes ≠ [] ∧
    sessC7.beneficiaryNames ≠ [] ∧
    (build_callback_payload sessC7).totalMessagesExchanged = 2 ∧
    sessC7.turnCount = 5 := by
  refine ⟨rfl, rfl, rfl, ?_, ?_, rfl, rfl⟩ <;> decide

/-- C7 (amended): for every session record the payload has the fixed shape
`sessionId`, `scamDetected`, `totalMessagesExchanged = lastHistoryLen + 2`,
an `extractedIntelligence` object with exactly the five lists
`bankAccounts`, `upiIds`, `phishingLinks`, `phoneNumbers`,
`suspiciousKeywords`, and the free-text `agentNotes` naming scam type, stage
and item count. -/
theorem C7_payload_shape :
    ∀ s : SessionState,
      (build_callback_payload s).sessionId = s.sessionId ∧
      (build_callback_payload s).scamDetected = s.scamDetected ∧
      (build_callback_payload s).totalMessagesExchanged = s.lastHistoryLen + 2 ∧
      (build_callback_payload s).extractedIntelligence
        = [("bankAccounts", s.bankAccounts), ("upiIds", s.upiIds),
           ("phishingLinks", s.phishingLinks), ("phoneNumbers", s.phoneNumbers),
           ("suspiciousKeywords", s.suspiciousKeywords)] ∧
      (build_callback_payload s).agentNotes
        = "Scam conversation engagement completed. scamType=" ++ s.scamType ++
            ", stage=" ++ s.stage ++ ", items=" ++
            toString (s.upiIds.length + s.bankAccounts.length +
              s.phishingLinks.length + s.phoneNumbers.length) :=
  fun _ => ⟨rfl, rfl, rfl, rfl, rfl⟩

/-- The forward order of the dialogue stages (unknown labels rank lowest). -/
def stageRank (st : String) : Nat :=
  if st = "HOOK" then 0
  else if st = "FRICTION" then 1
  else if st = "EXTRACT" then 2
  else if st = "VERIFY" then 3
  else if st = "EXIT" then 4
  else 0

theorem stageRank_le_four (st : String) : stageRank st ≤ 4 := by
  unfold stageRank
  split_ifs <;> omega

/-- First three turns of a scam conversation with no extractable entities,
then a message carrying a link (C8). -/
def c8s1 : SessionState :=
  (honeypotStep false none (initSession "session-c8" 0) "your account is blocked" []).state

def c8s2 : SessionState :=
  (honeypotStep false none c8s1 "your account is blocked" []).state

def c8s3 : SessionState :=
  (honeypotStep false none c8s2 "your account is blocked" []).state

def c8s4 : SessionState :=
  (honeypotStep false none c8s3 "go to http://a.bc" []).state

/-- C8 (counterexample): a reachable session at stage VERIFY moves BACK to
FRICTION when the processed message carries a link — the stage order is not
monotonic. -/
theorem C8_stage_monotonic_cex :
    c8s3.stage = "VERIFY" ∧ c8s4.stage = "FRICTION" ∧
    c8s3.completed = false ∧ c8s4.completed = false :=
  ⟨rfl, rfl, rfl, rfl⟩

/-- C8 (amended): once the session is completed (the EXIT terminal) the stage
stays EXIT forever; and on a message yielding no new entities the stage never
moves backward from a non-EXIT stage.  The reactive branch, however, may move
the stage backward (a link at VERIFY moves it to FRICTION, as the
counterexample shows). -/
theorem C8_stage_monotonic_amended :
    ∀ (s : SessionState) (m : String),
      (s.completed = true →
        ((next_reply s m).2).stage = "EXIT" ∧ ((next_reply s m).2).completed = true) ∧
      ((extract_all m).beneficiaryNames = [] → (extract_all m).phishingLinks = [] →
       (extract_all m).upiIds = [] → (extract_all m).bankAccounts = [] →
       (extract_all m).phoneNumbers = [] → s.stage ≠ "EXIT" →
       stageRank s.stage ≤ stageRank ((next_reply s m).2).stage) := by
  intro s m
  constructor
  · intro h
    unfold next_reply
    simp only [h, if_true]
    simp [replyWith, set_intent_stage, set_intent_completed, setStage, h]
  · intro hB hL hU hA hP hne
    unfold next_reply
    simp only [hB, hL, hU, hA, hP, List.isEmpty_nil, Bool.not_true, Bool.false_and,
      Bool.and_false, Bool.false_eq_true, if_false]
    split_ifs with h1 h2 h3 h4 h5
    all_goals
      simp only [replyWith, frictionReply, pickExcuse_stage, set_intent_stage, setStage,
        markCompletedExit]
    all_goals
      first
      | exact stageRank_le_four _
      | exact Nat.le_refl _
      | simp_all [stageRank]

/-- Completed session and fresh HOOK session used to instantiate C8. -/
def sessC8done : SessionState :=
  { initSession "session-c8a" 0 with completed := true, stage := "EXIT" }

/-- Witness for C8 (amended): the completed branch stays at EXIT, and a
no-entity message at HOOK moves the stage forward. -/
theorem C8_stage_monotonic_amended_witness :
    ((next_reply sessC8done "hello").2).stage = "EXIT" ∧
    stageRank (initSession "session-c8b" 0).stage
      ≤ stageRank ((next_reply (initSession "session-c8b" 0) "hello").2).stage :=
  ⟨((C8_stage_monotonic_amended sessC8done "hello").1 rfl).1,
   (C8_stage_monotonic_amended (initSession "session-c8b" 0) "hello").2
     rfl rfl rfl rfl rfl (by decide)⟩

end Honeypot
